import Mathlib

/-!
Shallow embedding of the carpooling platform reservation engine
(src/app/api/reservations.py, src/app/api/rides.py,
src/app/api/notifications.py, src/app/models/), together with proofs of
the seat-accounting and lifecycle properties stated in the specification.

Machine integers of the source are Python arbitrary-precision ints stored
in SQL Integer columns; they are modelled as Lean Int (seat counts) and
Nat (identifiers). Each Flask endpoint body is modelled as a pure function
from the database state to Except: an error value corresponds to an
api.abort before any commit, so the state is unchanged on every error
path, exactly as in the source where all mutations happen on the ORM
session and are only persisted by db.session.commit().
-/

namespace Carpool

inductive RideStatus
  | ACTIVE
  | FULL
  | COMPLETED
deriving DecidableEq, Repr

inductive ResStatus
  | PENDING
  | CONFIRMED
  | CANCELLED
  | REJECTED
deriving DecidableEq, Repr

/-- Model of app/models/ride.py: class Ride. -/
structure Ride where
  id : Nat
  driver_id : Nat
  origin : String
  destination : String
  departure_time : Nat
  available_seats : Int
  status : RideStatus
deriving DecidableEq, Repr

/-- Model of app/models/reservation.py: class Reservation. -/
structure Reservation where
  id : Nat
  employee_id : Nat
  ride_id : Nat
  seats_reserved : Int
  status : ResStatus
deriving DecidableEq, Repr

/-- Model of app/models/notification.py: class Notification. -/
structure Notification where
  id : Nat
  employee_id : Nat
  ride_id : Nat
  message : String
  is_read : Bool
deriving DecidableEq, Repr

/-- The database state: the three tables touched by the reservation
engine, plus autoincrement counters for the primary keys the engine
creates. -/
structure DB where
  rides : List Ride
  reservations : List Reservation
  notifications : List Notification
  next_res_id : Nat
  next_notif_id : Nat
deriving DecidableEq, Repr

/-- An api.abort(status, message): the standardized error body is derived
from the status code by app/utils/error_handlers.py. -/
structure ApiErr where
  status : Nat
  message : String
deriving DecidableEq, Repr

/-- ERROR_CODES mapping of app/utils/error_handlers.py. -/
def errorCode (status : Nat) : String :=
  if status = 400 then "VALIDATION_ERROR"
  else if status = 401 then "UNAUTHORIZED"
  else if status = 403 then "FORBIDDEN"
  else if status = 404 then "NOT_FOUND"
  else "INTERNAL_ERROR"

/-- Model.query.get(k): lookup of a row by primary key. -/
def findByKey {α : Type} (key : α → Nat) (k : Nat) (l : List α) : Option α :=
  l.find? (fun x => key x == k)

/-- Writing back a mutated ORM row: the row with the given primary key is
replaced. -/
def setByKey {α : Type} (key : α → Nat) (k : Nat) (a' : α) (l : List α) : List α :=
  l.map (fun x => if key x == k then a' else x)

def DB.getRide (db : DB) (id : Nat) : Option Ride :=
  findByKey Ride.id id db.rides

def DB.getRes (db : DB) (id : Nat) : Option Reservation :=
  findByKey Reservation.id id db.reservations

def DB.getNotif (db : DB) (id : Nat) : Option Notification :=
  findByKey Notification.id id db.notifications

def DB.setRide (db : DB) (r' : Ride) : DB :=
  { db with rides := setByKey Ride.id r'.id r' db.rides }

def DB.setRes (db : DB) (rv' : Reservation) : DB :=
  { db with reservations := setByKey Reservation.id rv'.id rv' db.reservations }

/-- db.session.add(Notification(...)): a fresh notification row. -/
def DB.addNotif (db : DB) (employee_id ride_id : Nat) (msg : String) : DB :=
  { db with
      notifications :=
        db.notifications ++ [⟨db.next_notif_id, employee_id, ride_id, msg, false⟩],
      next_notif_id := db.next_notif_id + 1 }

/-- The SUM(seats_reserved) ... WHERE ride_id = rid AND status =
CONFIRMED query used by RideDetail.put. -/
def confirmedSeats (db : DB) (rid : Nat) : Int :=
  (db.reservations.map (fun rv =>
    if rv.ride_id == rid && rv.status == ResStatus.CONFIRMED then rv.seats_reserved else 0)).sum

/-- Request body of ReservationList.post. Absent JSON keys are none;
data.get falls back exactly as in the source (seats_reserved defaults to
1, the ids default to a falsy value). -/
structure ReservationCreateBody where
  employee_id : Option Nat
  ride_id : Option Nat
  seats_reserved : Option Int
deriving DecidableEq, Repr

/-- Request body of RideDetail.put: every field optional. -/
structure RideUpdateBody where
  origin : Option String
  destination : Option String
  departure_time : Option Nat
  available_seats : Option Int
deriving DecidableEq, Repr

/-- ReservationList.post of src/app/api/reservations.py. The caller is
the JWT identity; the endpoint requires a valid token but never reads the
identity. -/
def createReservation (caller : Nat) (body : ReservationCreateBody) (db : DB) :
    Except ApiErr (DB × Reservation) :=
  let seats := body.seats_reserved.getD 1
  if seats ≤ 0 then
    .error ⟨400, "seats_reserved must be a positive integer greater than 0"⟩
  else
    let rid := body.ride_id.getD 0
    let eid := body.employee_id.getD 0
    if rid = 0 ∨ eid = 0 then
      .error ⟨400, "ride_id and employee_id are required"⟩
    else
      match db.getRide rid with
      | none => .error ⟨404, "Ride not found"⟩
      | some ride =>
        if db.reservations.any (fun rv =>
            rv.employee_id == eid && rv.ride_id == rid &&
            (rv.status == ResStatus.PENDING || rv.status == ResStatus.CONFIRMED)) then
          .error ⟨400, "You already have an active reservation for this ride"⟩
        else if ride.status = RideStatus.COMPLETED then
          .error ⟨400, "Cannot book a completed ride"⟩
        else if ride.status = RideStatus.FULL then
          .error ⟨400, "Ride is already full"⟩
        else if seats > ride.available_seats then
          .error ⟨400, "Not enough seats available"⟩
        else
          let rv : Reservation := ⟨db.next_res_id, eid, ride.id, seats, ResStatus.PENDING⟩
          let db₁ := { db with
                        reservations := db.reservations ++ [rv],
                        next_res_id := db.next_res_id + 1 }
          let db₂ := db₁.addNotif eid ride.id
            ("Reservation request pending for ride " ++ toString ride.id)
          let db₃ := db₂.addNotif ride.driver_id ride.id
            ("New reservation request for your ride " ++ toString ride.id)
          .ok (db₃, rv)

/-- ReservationCancel.post of src/app/api/reservations.py. -/
def cancelReservation (caller : Nat) (id : Nat) (db : DB) :
    Except ApiErr (DB × Reservation) :=
  match db.getRes id with
  | none => .error ⟨404, "Reservation not found"⟩
  | some rv =>
    if rv.employee_id ≠ caller then
      .error ⟨403, "Only the reservation creator can cancel it"⟩
    else if rv.status = ResStatus.CANCELLED ∨ rv.status = ResStatus.REJECTED then
      .error ⟨400, "Reservation is already cancelled or rejected"⟩
    else
      let db₁ :=
        if rv.status = ResStatus.CONFIRMED then
          match db.getRide rv.ride_id with
          | some ride =>
            db.setRide { ride with
              available_seats := ride.available_seats + rv.seats_reserved,
              status := if ride.status = RideStatus.FULL then RideStatus.ACTIVE
                        else ride.status }
          | none => db
        else db
      let rv' := { rv with status := ResStatus.CANCELLED }
      .ok (db₁.setRes rv', rv')

/-- ReservationApprove.patch of src/app/api/reservations.py. A missing
ride row would raise AttributeError inside the try block, caught as a 500
rollback. -/
def approveReservation (caller : Nat) (id : Nat) (db : DB) :
    Except ApiErr (DB × Reservation) :=
  match db.getRes id with
  | none => .error ⟨404, "Reservation not found"⟩
  | some rv =>
    match db.getRide rv.ride_id with
    | none => .error ⟨500, "Approval failed"⟩
    | some ride =>
      if ride.driver_id ≠ caller then
        .error ⟨403, "Only the ride driver can approve reservations"⟩
      else if rv.status ≠ ResStatus.PENDING then
        .error ⟨400, "Cannot approve reservation with this status"⟩
      else if rv.seats_reserved > ride.available_seats then
        .error ⟨400, "Not enough seats available"⟩
      else
        let newSeats := ride.available_seats - rv.seats_reserved
        let ride' := { ride with
          available_seats := newSeats,
          status := if newSeats = 0 then RideStatus.FULL else ride.status }
        let rv' := { rv with status := ResStatus.CONFIRMED }
        let db' := ((db.setRide ride').setRes rv').addNotif rv.employee_id ride.id
          ("Reservation APPROVED for ride " ++ toString ride.id)
        .ok (db', rv')

/-- ReservationReject.patch of src/app/api/reservations.py. -/
def rejectReservation (caller : Nat) (id : Nat) (db : DB) :
    Except ApiErr (DB × Reservation) :=
  match db.getRes id with
  | none => .error ⟨404, "Reservation not found"⟩
  | some rv =>
    match db.getRide rv.ride_id with
    | none => .error ⟨500, "Rejection failed"⟩
    | some ride =>
      if ride.driver_id ≠ caller then
        .error ⟨403, "Only the ride driver can reject reservations"⟩
      else if rv.status ≠ ResStatus.PENDING then
        .error ⟨400, "Cannot reject reservation with this status"⟩
      else
        let rv' := { rv with status := ResStatus.REJECTED }
        let db' := (db.setRes rv').addNotif rv.employee_id ride.id
          ("Reservation REJECTED for ride " ++ toString ride.id)
        .ok (db', rv')

/-- ReservationDetail.delete of src/app/api/reservations.py: the
administrative delete. It restores seats unconditionally, regardless of
the reservation status. -/
def deleteReservation (id : Nat) (db : DB) : Except ApiErr DB :=
  match db.getRes id with
  | none => .error ⟨404, "Reservation not found"⟩
  | some rv =>
    let db₁ :=
      match db.getRide rv.ride_id with
      | some ride =>
        db.setRide { ride with available_seats := ride.available_seats + rv.seats_reserved }
      | none => db
    .ok { db₁ with reservations := db₁.reservations.filter (fun x => x.id != rv.id) }

/-- RideDetail.put of src/app/api/rides.py. -/
def updateRide (caller : Nat) (id : Nat) (body : RideUpdateBody) (db : DB) :
    Except ApiErr (DB × Ride) :=
  match db.getRide id with
  | none => .error ⟨404, "Ride not found"⟩
  | some ride =>
    if ride.driver_id ≠ caller then
      .error ⟨403, "Only the ride driver can update it"⟩
    else if ride.status = RideStatus.COMPLETED then
      .error ⟨400, "Cannot update a completed ride"⟩
    else
      let r₁ := { ride with
        origin := body.origin.getD ride.origin,
        destination := body.destination.getD ride.destination,
        departure_time := body.departure_time.getD ride.departure_time }
      match body.available_seats with
      | none => .ok (db.setRide r₁, r₁)
      | some newSeats =>
        if newSeats < confirmedSeats db id then
          .error ⟨400, "Cannot set seats below already reserved amount"⟩
        else
          let r₂ := { r₁ with
            available_seats := newSeats,
            status := if newSeats > 0 ∧ r₁.status = RideStatus.FULL then RideStatus.ACTIVE
                      else r₁.status }
          .ok (db.setRide r₂, r₂)

/-- RideComplete.patch of src/app/api/rides.py. -/
def completeRide (caller : Nat) (id : Nat) (db : DB) : Except ApiErr (DB × Ride) :=
  match db.getRide id with
  | none => .error ⟨404, "Ride not found"⟩
  | some ride =>
    if ride.driver_id ≠ caller then
      .error ⟨403, "Only the ride driver can complete it"⟩
    else if ride.status = RideStatus.COMPLETED then
      .error ⟨400, "Ride is already completed"⟩
    else
      let r' := { ride with status := RideStatus.COMPLETED }
      .ok (db.setRide r', r')

/-- NotificationRead.patch of src/app/api/notifications.py, the variant
the claims cite: it performs no ownership check on the caller. -/
def markNotificationRead (caller : Nat) (id : Nat) (db : DB) :
    Except ApiErr (DB × Notification) :=
  match db.getNotif id with
  | none => .error ⟨404, "Notification not found"⟩
  | some n =>
    let n' := { n with is_read := true }
    .ok ({ db with notifications := setByKey Notification.id n'.id n' db.notifications }, n')

/-- The ride status characterization of spec §8: FULL iff zero seats and
not completed, ACTIVE iff positive seats and not completed. -/
def rideChar (r : Ride) : Prop :=
  (r.status = RideStatus.FULL ↔ r.available_seats = 0 ∧ r.status ≠ RideStatus.COMPLETED) ∧
  (r.status = RideStatus.ACTIVE ↔ 0 < r.available_seats ∧ r.status ≠ RideStatus.COMPLETED)

instance (r : Ride) : Decidable (rideChar r) := by
  unfold rideChar; infer_instance

/-- All reservations carry a positive seat count, as enforced by
ReservationList.post at creation. -/
def seatsPos (db : DB) : Prop :=
  ∀ rv ∈ db.reservations, 0 < rv.seats_reserved

instance (db : DB) : Decidable (seatsPos db) := by
  unfold seatsPos; infer_instance

/-- Convenience projection: the available seats of a ride, if present. -/
def availOf (db : DB) (rid : Nat) : Option Int :=
  (db.getRide rid).map Ride.available_seats

/-- Convenience projection: the status of a ride, if present. -/
def statusOf (db : DB) (rid : Nat) : Option RideStatus :=
  (db.getRide rid).map Ride.status

/-- Convenience projection: the status of an error result. -/
def errStatusOf {α : Type} : Except ApiErr α → Option Nat
  | .error e => some e.status
  | .ok _ => none

/-- The reservation referenced by id is PENDING for one seat on the given
ride: precondition of the concurrency property. -/
def pendingUnit (db : DB) (rid i : Nat) : Bool :=
  match db.getRes i with
  | some rv => rv.ride_id == rid && rv.seats_reserved == 1 && rv.status == ResStatus.PENDING
  | none => false

/-- Serialized execution of a batch of approve calls. Each approve holds
the per-ride SELECT FOR UPDATE lock across its read-check-write sequence,
so a set of concurrent approvals is equivalent to some serial order of
the same calls; the list gives that order. Returns the final state, the
number of successful approvals and the number of 400 VALIDATION_ERROR
failures. -/
def approveAll (caller : Nat) (db : DB) (ids : List Nat) : DB × Nat × Nat :=
  match ids with
  | [] => (db, 0, 0)
  | i :: rest =>
    match approveReservation caller i db with
    | .ok p =>
      let r := approveAll caller p.1 rest
      (r.1, r.2.1 + 1, r.2.2)
    | .error e =>
      let r := approveAll caller db rest
      (r.1, r.2.1, if e.status == 400 then r.2.2 + 1 else r.2.2)

/-- Whether a result is an error (an aborted, rolled-back request). -/
def isErr {α : Type} : Except ApiErr α → Bool
  | .error _ => true
  | .ok _ => false

instance {ε α : Type} [DecidableEq ε] [DecidableEq α] : DecidableEq (Except ε α) := fun x y =>
  match x, y with
  | .error a, .error b =>
    if h : a = b then isTrue (by rw [h]) else isFalse (fun hh => by cases hh; exact h rfl)
  | .ok a, .ok b =>
    if h : a = b then isTrue (by rw [h]) else isFalse (fun hh => by cases hh; exact h rfl)
  | .error _, .ok _ => isFalse (fun hh => by cases hh)
  | .ok _, .error _ => isFalse (fun hh => by cases hh)

/-- Fixture: one ACTIVE ride with 3 seats and one PENDING reservation for
2 seats on it. -/
def exDelete : DB :=
  ⟨[⟨1, 10, "A", "B", 0, 3, RideStatus.ACTIVE⟩],
   [⟨1, 20, 1, 2, ResStatus.PENDING⟩], [], 2, 1⟩

/-- Fixture: a COMPLETED ride with 2 seats left and a PENDING reservation
for 2 seats that was created before the ride completed. -/
def exCompleted : DB :=
  ⟨[⟨1, 10, "A", "B", 0, 2, RideStatus.COMPLETED⟩],
   [⟨1, 20, 1, 2, ResStatus.PENDING⟩], [], 2, 1⟩

/-- Fixture: one ACTIVE ride with one seat and no reservations. -/
def exActive : DB :=
  ⟨[⟨1, 10, "A", "B", 0, 1, RideStatus.ACTIVE⟩], [], [], 1, 1⟩

/-- Fixture: a FULL ride whose single seat is held by a CONFIRMED
reservation of employee 20, plus an already-CANCELLED reservation of the
same employee. -/
def exConfirmed : DB :=
  ⟨[⟨1, 10, "A", "B", 0, 0, RideStatus.FULL⟩],
   [⟨1, 20, 1, 1, ResStatus.CONFIRMED⟩, ⟨2, 20, 1, 1, ResStatus.CANCELLED⟩], [], 3, 1⟩

/-- Fixture: a single unread notification owned by employee 1. -/
def exNotifDb : DB :=
  ⟨[], [], [⟨1, 1, 1, "Reservation APPROVED for ride 1", false⟩], 1, 2⟩

/-- Fixture: an ACTIVE ride with capacity 1 and two PENDING one-seat
reservations competing for it. -/
def exTwoPending : DB :=
  ⟨[⟨1, 10, "A", "B", 0, 1, RideStatus.ACTIVE⟩],
   [⟨1, 20, 1, 1, ResStatus.PENDING⟩, ⟨2, 21, 1, 1, ResStatus.PENDING⟩], [], 3, 1⟩

theorem findByKey_eq {α : Type} {key : α → Nat} {k : Nat} {l : List α} {a : α}
    (h : findByKey key k l = some a) : key a = k ∧ a ∈ l := by
  unfold findByKey at h
  refine ⟨?_, List.mem_of_find?_eq_some h⟩
  simpa using List.find?_some h

theorem findByKey_setByKey_eq {α : Type} {key : α → Nat} {k : Nat} {a' : α}
    (hk : key a' = k) {l : List α} (hm : ∃ a ∈ l, key a = k) :
    findByKey key k (setByKey key k a' l) = some a' := by
  induction l with
  | nil => simp at hm
  | cons b t ih =>
    by_cases hb : key b = k
    · simp [findByKey, setByKey, List.find?_cons, hb, hk]
    · have ht : ∃ a ∈ t, key a = k := by
        rcases hm with ⟨a, ha, hka⟩
        rcases List.mem_cons.1 ha with h | h
        · exact absurd (h ▸ hka) hb
        · exact ⟨a, h, hka⟩
      have := ih ht
      simpa [findByKey, setByKey, List.find?_cons, hb] using this

theorem findByKey_setByKey_ne {α : Type} {key : α → Nat} {k k' : Nat} {a' : α}
    (hk : key a' = k) (hne : k' ≠ k) (l : List α) :
    findByKey key k' (setByKey key k a' l) = findByKey key k' l := by
  have ha' : (key a' == k') = false := by
    simp [hk]; exact fun h => hne h.symm
  simp only [findByKey, setByKey]
  induction l with
  | nil => rfl
  | cons b t ih =>
    rw [List.map_cons]
    by_cases hb : key b = k
    · have hb0 : (key b == k) = true := by simp [hb]
      have hb2 : (key b == k') = false := by
        simp [hb]; exact fun h => hne h.symm
      simp only [List.find?, hb0, if_true, ha', hb2]
      exact ih
    · have hb1 : (key b == k) = false := by simp [hb]
      simp only [List.find?, hb1, Bool.false_eq_true, if_false]
      cases hbk : (key b == k') with
      | true => rfl
      | false => exact ih

theorem mem_setByKey {α : Type} {key : α → Nat} {k : Nat} {a' : α} {l : List α} {x : α}
    (hx : x ∈ setByKey key k a' l) : x = a' ∨ x ∈ l := by
  unfold setByKey at hx
  rcases List.mem_map.1 hx with ⟨y, hy, hxy⟩
  by_cases h : key y = k
  · left; rw [if_pos (by simpa using h)] at hxy; exact hxy.symm
  · right; rw [if_neg (by simpa using h)] at hxy; exact hxy ▸ hy

theorem getRes_setRes_self {db : DB} {rv' : Reservation}
    (hm : ∃ a ∈ db.reservations, Reservation.id a = rv'.id) :
    (db.setRes rv').getRes rv'.id = some rv' :=
  findByKey_setByKey_eq rfl hm

theorem getRide_setRide_self {db : DB} {r' : Ride}
    (hm : ∃ a ∈ db.rides, Ride.id a = r'.id) :
    (db.setRide r').getRide r'.id = some r' :=
  findByKey_setByKey_eq rfl hm

theorem getRes_setRes_ne {db : DB} {rv' : Reservation} {k : Nat} (h : k ≠ rv'.id) :
    (db.setRes rv').getRes k = db.getRes k :=
  findByKey_setByKey_ne rfl h _

theorem getRide_setRide_ne {db : DB} {r' : Ride} {k : Nat} (h : k ≠ r'.id) :
    (db.setRide r').getRide k = db.getRide k :=
  findByKey_setByKey_ne rfl h _

theorem getRide_setRes (db : DB) (rv' : Reservation) (k : Nat) :
    (db.setRes rv').getRide k = db.getRide k := rfl

theorem getRide_addNotif (db : DB) (e r : Nat) (m : String) (k : Nat) :
    (db.addNotif e r m).getRide k = db.getRide k := rfl

theorem getRes_setRide (db : DB) (r' : Ride) (k : Nat) :
    (db.setRide r').getRes k = db.getRes k := rfl

theorem getRes_addNotif (db : DB) (e r : Nat) (m : String) (k : Nat) :
    (db.addNotif e r m).getRes k = db.getRes k := rfl

theorem rides_setRes (db : DB) (rv' : Reservation) :
    (db.setRes rv').rides = db.rides := rfl

theorem reservations_setRide (db : DB) (r' : Ride) :
    (db.setRide r').reservations = db.reservations := rfl

/-- C1: the administrative delete endpoint breaks the seat-accounting
invariant. In the fixture the ride was created with 3 seats and has no
CONFIRMED reservation, so available_seats + confirmed = 3 + 0 matches the
capacity fixed at creation; deleting the PENDING reservation (for which
no seats were ever deducted) leaves available_seats + confirmed = 5 + 0,
exceeding that capacity, because ReservationDetail.delete restores
seats_reserved unconditionally. -/
theorem C1_delete_breaks_seat_accounting :
    availOf exDelete 1 = some 3 ∧ confirmedSeats exDelete 1 = 0 ∧
    (deleteReservation 1 exDelete).map (fun d => (availOf d 1, confirmedSeats d 1)) =
      .ok (some 5, 0) := by decide

/-- C6: deleting a PENDING reservation changes the ride's
available_seats. The claim states the seats are restored if and only if
the reservation is CONFIRMED; the code of ReservationDetail.delete adds
seats_reserved back regardless of status, so the PENDING delete moves
available_seats from 3 to 5. -/
theorem C6_delete_restores_for_pending :
    (exDelete.getRes 1).map Reservation.status = some ResStatus.PENDING ∧
    availOf exDelete 1 = some 3 ∧
    (deleteReservation 1 exDelete).map (fun d => availOf d 1) = .ok (some 5) := by decide

/-- C9: NotificationRead.patch in src/app/api/notifications.py performs
no ownership check: notification 1 is owned by employee 1, yet caller 2
successfully marks it read (the claim requires FORBIDDEN with the
notification unchanged). -/
theorem C9_no_ownership_check :
    (exNotifDb.getNotif 1).map Notification.employee_id = some 1 ∧
    (markNotificationRead 2 1 exNotifDb).map (fun p => (p.2.employee_id, p.2.is_read)) =
      .ok (1, true) := by decide

/-- C2: approve succeeds exactly when the caller is the ride's driver,
the reservation is currently PENDING, and seats_reserved is at most the
ride's available_seats re-read at approval time; on success it deducts
seats_reserved from available_seats, sets the ride status to FULL iff the
result is 0 (otherwise leaves it), marks the reservation CONFIRMED, and
appends exactly one notification, addressed to the rider. -/
theorem C2_approve_correct (caller id : Nat) (db : DB) (rv : Reservation) (ride : Ride)
    (hrv : db.getRes id = some rv) (hride : db.getRide rv.ride_id = some ride) :
    ((∃ p, approveReservation caller id db = .ok p) ↔
      ride.driver_id = caller ∧ rv.status = ResStatus.PENDING ∧
        rv.seats_reserved ≤ ride.available_seats) ∧
    (∀ db' rv', approveReservation caller id db = .ok (db', rv') →
      rv' = { rv with status := ResStatus.CONFIRMED } ∧
      db'.getRes id = some rv' ∧
      db'.getRide rv.ride_id = some { ride with
        available_seats := ride.available_seats - rv.seats_reserved,
        status := if ride.available_seats - rv.seats_reserved = 0 then RideStatus.FULL
                  else ride.status } ∧
      db'.notifications = db.notifications ++
        [⟨db.next_notif_id, rv.employee_id, ride.id,
          "Reservation APPROVED for ride " ++ toString ride.id, false⟩]) := by
  obtain ⟨hkrv, hmrv⟩ := findByKey_eq (show findByKey Reservation.id id db.reservations = some rv from hrv)
  obtain ⟨hkride, hmride⟩ := findByKey_eq (show findByKey Ride.id rv.ride_id db.rides = some ride from hride)
  constructor
  · simp only [approveReservation, hrv, hride]
    by_cases h1 : ride.driver_id = caller
    · by_cases h2 : rv.status = ResStatus.PENDING
      · by_cases h3 : rv.seats_reserved ≤ ride.available_seats
        · simp [h1, h2, h3, not_lt.2 h3]
        · simp [h1, h2, h3, lt_of_not_le h3]
      · simp [h1, h2]
    · simp [h1]
  · intro db' rv' hok
    simp only [approveReservation, hrv, hride] at hok
    by_cases h1 : ride.driver_id = caller
    · by_cases h2 : rv.status = ResStatus.PENDING
      · by_cases h3 : rv.seats_reserved > ride.available_seats
        · rw [if_neg (not_not_intro h1), if_neg (not_not_intro h2), if_pos h3] at hok
          exact Except.noConfusion hok
        · rw [if_neg (not_not_intro h1), if_neg (not_not_intro h2), if_neg h3] at hok
          simp only [Except.ok.injEq, Prod.mk.injEq] at hok
          obtain ⟨hdb, hrveq⟩ := hok
          subst hdb; subst hrveq
          refine ⟨rfl, ?_, ?_, ?_⟩
          · rw [getRes_addNotif, ← hkrv]
            exact getRes_setRes_self ⟨rv, hmrv, rfl⟩
          · rw [getRide_addNotif, getRide_setRes, ← hkride]
            exact getRide_setRide_self ⟨ride, hmride, rfl⟩
          · rfl
      · rw [if_neg (not_not_intro h1), if_pos h2] at hok
        exact Except.noConfusion hok
    · rw [if_pos h1] at hok
      exact Except.noConfusion hok

/-- Witness for C2: driver 10 approves the PENDING 2-seat reservation on
the 3-seat ride; the reservation becomes CONFIRMED. -/
theorem C2_approve_correct_witness :
    (approveReservation 10 1 exDelete).map (fun p => (p.1.getRes 1, p.2)) =
      .ok (some ⟨1, 20, 1, 2, ResStatus.CONFIRMED⟩, ⟨1, 20, 1, 2, ResStatus.CONFIRMED⟩) := by
  obtain ⟨⟨db', rv'⟩, hp⟩ :=
    (C2_approve_correct 10 1 exDelete ⟨1, 20, 1, 2, ResStatus.PENDING⟩
      ⟨1, 10, "A", "B", 0, 3, RideStatus.ACTIVE⟩ rfl rfl).1.mpr (by decide)
  obtain ⟨h1, h2, h3, h4⟩ :=
    (C2_approve_correct 10 1 exDelete ⟨1, 20, 1, 2, ResStatus.PENDING⟩
      ⟨1, 10, "A", "B", 0, 3, RideStatus.ACTIVE⟩ rfl rfl).2 db' rv' hp
  rw [hp]
  simp only [Except.map]
  rw [h2, h1]

/-- C5: cancel succeeds exactly when the caller is the reservation's
creator and the status is not already CANCELLED or REJECTED; on success
the reservation becomes CANCELLED and, iff the prior status was
CONFIRMED, seats_reserved is added back to the ride's available_seats
with a FULL ride reverting to ACTIVE; a COMPLETED ride keeps its status
(the if only maps FULL to ACTIVE), so a completed ride is never
reopened. -/
theorem C5_cancel_correct (caller id : Nat) (db : DB) (rv : Reservation) (ride : Ride)
    (hrv : db.getRes id = some rv) (hride : db.getRide rv.ride_id = some ride) :
    ((∃ p, cancelReservation caller id db = .ok p) ↔
      rv.employee_id = caller ∧ rv.status ≠ ResStatus.CANCELLED ∧
        rv.status ≠ ResStatus.REJECTED) ∧
    (∀ db' rv', cancelReservation caller id db = .ok (db', rv') →
      rv' = { rv with status := ResStatus.CANCELLED } ∧
      db'.getRes id = some rv' ∧
      (rv.status = ResStatus.CONFIRMED →
        db'.getRide rv.ride_id = some { ride with
          available_seats := ride.available_seats + rv.seats_reserved,
          status := if ride.status = RideStatus.FULL then RideStatus.ACTIVE
                    else ride.status }) ∧
      (rv.status ≠ ResStatus.CONFIRMED → db'.getRide rv.ride_id = some ride) ∧
      db'.notifications = db.notifications) := by
  obtain ⟨hkrv, hmrv⟩ := findByKey_eq (show findByKey Reservation.id id db.reservations = some rv from hrv)
  obtain ⟨hkride, hmride⟩ := findByKey_eq (show findByKey Ride.id rv.ride_id db.rides = some ride from hride)
  constructor
  · simp only [cancelReservation, hrv]
    by_cases h1 : rv.employee_id = caller
    · by_cases h2 : rv.status = ResStatus.CANCELLED ∨ rv.status = ResStatus.REJECTED
      · rcases h2 with h2 | h2 <;> simp [h1, h2]
      · obtain ⟨h2a, h2b⟩ := not_or.1 h2
        simp [h1, h2a, h2b, if_neg h2]
    · simp [h1]
  · intro db' rv' hok
    simp only [cancelReservation, hrv] at hok
    by_cases h1 : rv.employee_id = caller
    · by_cases h2 : rv.status = ResStatus.CANCELLED ∨ rv.status = ResStatus.REJECTED
      · rw [if_neg (not_not_intro h1), if_pos h2] at hok
        exact Except.noConfusion hok
      · rw [if_neg (not_not_intro h1), if_neg h2] at hok
        by_cases h3 : rv.status = ResStatus.CONFIRMED
        · rw [if_pos h3, hride] at hok
          simp only [Except.ok.injEq, Prod.mk.injEq] at hok
          obtain ⟨hdb, hrveq⟩ := hok
          subst hdb; subst hrveq
          refine ⟨rfl, ?_, ?_, ?_, ?_⟩
          · rw [← hkrv]
            exact getRes_setRes_self ⟨rv, hmrv, rfl⟩
          · intro _
            rw [getRide_setRes, ← hkride]
            exact getRide_setRide_self ⟨ride, hmride, rfl⟩
          · intro hc; exact absurd h3 hc
          · rfl
        · rw [if_neg h3] at hok
          simp only [Except.ok.injEq, Prod.mk.injEq] at hok
          obtain ⟨hdb, hrveq⟩ := hok
          subst hdb; subst hrveq
          refine ⟨rfl, ?_, ?_, ?_, ?_⟩
          · rw [← hkrv]
            exact getRes_setRes_self ⟨rv, hmrv, rfl⟩
          · intro hc; exact absurd hc h3
          · intro _
            rw [getRide_setRes]
            exact hride
          · rfl
    · rw [if_pos h1] at hok
      exact Except.noConfusion hok

/-- Witness for C5: employee 20 cancels their CONFIRMED 1-seat
reservation on the FULL 0-seat ride; the ride reverts to ACTIVE with one
seat and the reservation becomes CANCELLED. -/
theorem C5_cancel_correct_witness :
    (cancelReservation 20 1 exConfirmed).map (fun p => (p.1.getRide 1, p.2.status)) =
      .ok (some ⟨1, 10, "A", "B", 0, 1, RideStatus.ACTIVE⟩, ResStatus.CANCELLED) := by
  obtain ⟨⟨db', rv'⟩, hp⟩ :=
    (C5_cancel_correct 20 1 exConfirmed ⟨1, 20, 1, 1, ResStatus.CONFIRMED⟩
      ⟨1, 10, "A", "B", 0, 0, RideStatus.FULL⟩ rfl rfl).1.mpr (by decide)
  obtain ⟨h1, h2, h3, h4, h5⟩ :=
    (C5_cancel_correct 20 1 exConfirmed ⟨1, 20, 1, 1, ResStatus.CONFIRMED⟩
      ⟨1, 10, "A", "B", 0, 0, RideStatus.FULL⟩ rfl rfl).2 db' rv' hp
  rw [hp]
  simp only [Except.map]
  rw [h3 rfl, h1]
  rfl

/-- C7 counterexample: reservation 1 is CONFIRMED, i.e. not PENDING, so
the claim demands VALIDATION_ERROR (HTTP 400) for an approve call; but
caller 20 is not the driver and the authorization check runs first, so
the call fails with 403 FORBIDDEN instead. -/
theorem C7_counterexample :
    (exConfirmed.getRes 1).map Reservation.status = some ResStatus.CONFIRMED ∧
    (exConfirmed.getRide 1).map Ride.driver_id = some 10 ∧
    errStatusOf (approveReservation 20 1 exConfirmed) = some 403 ∧
    errorCode 403 = "FORBIDDEN" := by decide

/-- C7 (amended): provided the caller passes the authorization check
(the ride's driver for approve and reject, the reservation's creator for
cancel), calling approve or reject on a non-PENDING reservation, or
cancel on a CANCELLED or REJECTED one, always fails with the 400
VALIDATION_ERROR abort shown and, the state being part of the success
value only, leaves every Ride, Reservation and Notification unchanged;
an unauthorized caller gets 403 FORBIDDEN instead, also without
mutation. -/
theorem C7_terminal_state_validation (caller id : Nat) (db : DB) (rv : Reservation) (ride : Ride)
    (hrv : db.getRes id = some rv) (hride : db.getRide rv.ride_id = some ride) :
    (ride.driver_id = caller → rv.status ≠ ResStatus.PENDING →
      approveReservation caller id db =
        .error ⟨400, "Cannot approve reservation with this status"⟩) ∧
    (ride.driver_id = caller → rv.status ≠ ResStatus.PENDING →
      rejectReservation caller id db =
        .error ⟨400, "Cannot reject reservation with this status"⟩) ∧
    (rv.employee_id = caller →
      rv.status = ResStatus.CANCELLED ∨ rv.status = ResStatus.REJECTED →
      cancelReservation caller id db =
        .error ⟨400, "Reservation is already cancelled or rejected"⟩) ∧
    errorCode 400 = "VALIDATION_ERROR" := by
  refine ⟨?_, ?_, ?_, rfl⟩
  · intro h1 h2
    simp only [approveReservation, hrv, hride]
    rw [if_neg (not_not_intro h1), if_pos h2]
  · intro h1 h2
    simp only [rejectReservation, hrv, hride]
    rw [if_neg (not_not_intro h1), if_pos h2]
  · intro h1 h2
    simp only [cancelReservation, hrv]
    rw [if_neg (not_not_intro h1), if_pos h2]

/-- Witness for C7: driver 10 approving the CONFIRMED reservation gets
the 400 abort; creator 20 cancelling the already-CANCELLED reservation
gets the 400 abort. -/
theorem C7_terminal_state_validation_witness :
    approveReservation 10 1 exConfirmed =
      .error ⟨400, "Cannot approve reservation with this status"⟩ ∧
    cancelReservation 20 2 exConfirmed =
      .error ⟨400, "Reservation is already cancelled or rejected"⟩ := by
  refine ⟨(C7_terminal_state_validation 10 1 exConfirmed ⟨1, 20, 1, 1, ResStatus.CONFIRMED⟩
      ⟨1, 10, "A", "B", 0, 0, RideStatus.FULL⟩ rfl rfl).1 rfl (by decide), ?_⟩
  exact (C7_terminal_state_validation 20 2 exConfirmed ⟨2, 20, 1, 1, ResStatus.CANCELLED⟩
      ⟨1, 10, "A", "B", 0, 0, RideStatus.FULL⟩ rfl rfl).2.2.1 rfl (by decide)

/-- C4 counterexample: ride 1 is COMPLETED yet approving its PENDING
2-seat reservation succeeds, deducts the seats and even overwrites the
ride status with FULL, contradicting the claim that every approval on a
COMPLETED ride fails and leaves state unchanged. -/
theorem C4_counterexample :
    statusOf exCompleted 1 = some RideStatus.COMPLETED ∧
    (approveReservation 10 1 exCompleted).map
      (fun p => (statusOf p.1 1, availOf p.1 1, p.2.status)) =
      .ok (some RideStatus.FULL, some 0, ResStatus.CONFIRMED) := by decide

/-- C4 (amended): once a ride is COMPLETED, every ride update and every
reservation creation targeting it returns an error (and so, errors being
aborts before commit, leaves the ride's and reservations' state
unchanged); the approve endpoint performs no COMPLETED check, so
approvals are not blocked. -/
theorem C4_completed_blocks_update_and_create (db : DB) (rid : Nat) (ride : Ride)
    (hr : db.getRide rid = some ride) (hc : ride.status = RideStatus.COMPLETED) :
    (∀ caller body, ∃ e, updateRide caller rid body db = .error e) ∧
    (∀ caller body, body.ride_id = some rid →
      ∃ e, createReservation caller body db = .error e) := by
  constructor
  · intro caller body
    simp only [updateRide, hr]
    split_ifs <;> first | exact ⟨_, rfl⟩ | exact absurd hc (by assumption)
  · intro caller body hb
    simp only [createReservation, hb, Option.getD_some, hr]
    split_ifs <;> first | exact ⟨_, rfl⟩ | exact absurd hc (by assumption)

/-- Witness for C4 (amended): on the COMPLETED ride both the driver's
seat update and a new reservation request are rejected. -/
theorem C4_completed_blocks_witness :
    isErr (updateRide 10 1 ⟨none, none, none, some 5⟩ exCompleted) = true ∧
    isErr (createReservation 20 ⟨some 20, some 1, some 1⟩ exCompleted) = true := by
  obtain ⟨h1, h2⟩ := C4_completed_blocks_update_and_create exCompleted 1
    ⟨1, 10, "A", "B", 0, 2, RideStatus.COMPLETED⟩ rfl rfl
  obtain ⟨e1, he1⟩ := h1 10 ⟨none, none, none, some 5⟩
  obtain ⟨e2, he2⟩ := h2 20 ⟨some 20, some 1, some 1⟩ rfl
  rw [he1, he2]
  exact ⟨rfl, rfl⟩

/-- C10: ReservationList.post takes the rider from the request body's
employee_id and never reads the authenticated caller's identity, so two
different authenticated callers sending the same body against the same
state get the identical outcome, including the created reservation's
employee_id and both notifications (rider and driver); any authenticated
employee can create a reservation on behalf of any other employee. -/
theorem C10_caller_independent :
    (∀ c₁ c₂ body db,
      createReservation c₁ body db = createReservation c₂ body db) ∧
    (∀ c body db db' rv, createReservation c body db = .ok (db', rv) →
      rv.employee_id = body.employee_id.getD 0 ∧
      ∃ ride, db.getRide (body.ride_id.getD 0) = some ride ∧
        db'.notifications = db.notifications ++
          [⟨db.next_notif_id, body.employee_id.getD 0, ride.id,
            "Reservation request pending for ride " ++ toString ride.id, false⟩,
           ⟨db.next_notif_id + 1, ride.driver_id, ride.id,
            "New reservation request for your ride " ++ toString ride.id, false⟩]) := by
  constructor
  · intro c₁ c₂ body db
    rfl
  · intro c body db db' rv hok
    cases hgr : db.getRide (body.ride_id.getD 0) with
    | none =>
      simp only [createReservation, hgr] at hok
      split_ifs at hok <;> exact Except.noConfusion hok
    | some ride =>
      simp only [createReservation, hgr] at hok
      split_ifs at hok <;>
        first
        | exact Except.noConfusion hok
        | (simp only [Except.ok.injEq, Prod.mk.injEq] at hok
           obtain ⟨hdb, hrveq⟩ := hok
           subst hdb; subst hrveq
           refine ⟨rfl, ride, rfl, ?_⟩
           show (db.notifications ++ _) ++ _ = _
           rw [List.append_assoc]
           rfl)

/-- Witness for C10: callers 7 and 8 produce the identical result for the
same create body, and the created reservation's rider is employee 20 from
the body, not the caller. -/
theorem C10_caller_independent_witness :
    createReservation 7 ⟨some 20, some 1, some 1⟩ exActive =
      createReservation 8 ⟨some 20, some 1, some 1⟩ exActive ∧
    (createReservation 7 ⟨some 20, some 1, some 1⟩ exActive).map
      (fun p => p.2.employee_id) = .ok 20 := by
  refine ⟨C10_caller_independent.1 7 8 ⟨some 20, some 1, some 1⟩ exActive, ?_⟩
  cases hc : createReservation 7 ⟨some 20, some 1, some 1⟩ exActive with
  | error e =>
    have hfalse : isErr (createReservation 7 ⟨some 20, some 1, some 1⟩ exActive) = false := by
      decide
    rw [hc] at hfalse
    exact Bool.noConfusion hfalse
  | ok p =>
    obtain ⟨hemp, -⟩ := C10_caller_independent.2 7 ⟨some 20, some 1, some 1⟩ exActive
      p.1 p.2 (by rw [hc])
    simp only [Except.map]
    rw [hemp]
    rfl

theorem getRes_mem {db : DB} {i : Nat} {rv : Reservation} (h : db.getRes i = some rv) :
    rv.id = i ∧ rv ∈ db.reservations := findByKey_eq h

theorem getRide_mem {db : DB} {i : Nat} {r : Ride} (h : db.getRide i = some r) :
    r.id = i ∧ r ∈ db.rides := findByKey_eq h

theorem rideChar_iff (r : Ride) : rideChar r ↔
    (r.status = RideStatus.COMPLETED ∨
     (r.status = RideStatus.FULL ∧ r.available_seats = 0) ∨
     (r.status = RideStatus.ACTIVE ∧ 0 < r.available_seats)) := by
  unfold rideChar
  cases h : r.status <;> simp [h] <;> omega

theorem approve_ok_rides {caller id : Nat} {db db' : DB} {rvout : Reservation}
    (hok : approveReservation caller id db = .ok (db', rvout)) :
    ∃ rv ride, db.getRes id = some rv ∧ db.getRide rv.ride_id = some ride ∧
      rv.status = ResStatus.PENDING ∧ rv.seats_reserved ≤ ride.available_seats ∧
      db'.rides = setByKey Ride.id ride.id
        { ride with
          available_seats := ride.available_seats - rv.seats_reserved,
          status := if ride.available_seats - rv.seats_reserved = 0 then RideStatus.FULL
                    else ride.status } db.rides := by
  simp only [approveReservation] at hok
  cases hres : db.getRes id with
  | none => simp only [hres] at hok; exact Except.noConfusion hok
  | some rv =>
    simp only [hres] at hok
    cases hride : db.getRide rv.ride_id with
    | none => simp only [hride] at hok; exact Except.noConfusion hok
    | some ride =>
      simp only [hride] at hok
      by_cases h1 : ride.driver_id = caller
      · by_cases h2 : rv.status = ResStatus.PENDING
        · by_cases h3 : rv.seats_reserved > ride.available_seats
          · rw [if_neg (not_not_intro h1), if_neg (not_not_intro h2), if_pos h3] at hok
            exact Except.noConfusion hok
          · rw [if_neg (not_not_intro h1), if_neg (not_not_intro h2), if_neg h3] at hok
            simp only [Except.ok.injEq, Prod.mk.injEq] at hok
            obtain ⟨hdb, -⟩ := hok
            subst hdb
            exact ⟨rv, ride, rfl, hride, h2, not_lt.1 h3, rfl⟩
        · rw [if_neg (not_not_intro h1), if_pos h2] at hok
          exact Except.noConfusion hok
      · rw [if_pos h1] at hok
        exact Except.noConfusion hok

theorem cancel_ok_rides {caller id : Nat} {db db' : DB} {rvout : Reservation}
    (hok : cancelReservation caller id db = .ok (db', rvout)) :
    ∃ rv, db.getRes id = some rv ∧
      ((rv.status ≠ ResStatus.CONFIRMED ∧ db'.rides = db.rides) ∨
       (rv.status = ResStatus.CONFIRMED ∧
         ((db.getRide rv.ride_id = none ∧ db'.rides = db.rides) ∨
          ∃ ride, db.getRide rv.ride_id = some ride ∧
            db'.rides = setByKey Ride.id ride.id
              { ride with
                available_seats := ride.available_seats + rv.seats_reserved,
                status := if ride.status = RideStatus.FULL then RideStatus.ACTIVE
                          else ride.status } db.rides))) := by
  simp only [cancelReservation] at hok
  cases hres : db.getRes id with
  | none => simp only [hres] at hok; exact Except.noConfusion hok
  | some rv =>
    simp only [hres] at hok
    by_cases h1 : rv.employee_id = caller
    · by_cases h2 : rv.status = ResStatus.CANCELLED ∨ rv.status = ResStatus.REJECTED
      · rw [if_neg (not_not_intro h1), if_pos h2] at hok
        exact Except.noConfusion hok
      · rw [if_neg (not_not_intro h1), if_neg h2] at hok
        by_cases h3 : rv.status = ResStatus.CONFIRMED
        · rw [if_pos h3] at hok
          cases hgr : db.getRide rv.ride_id with
          | none =>
            simp only [hgr] at hok
            simp only [Except.ok.injEq, Prod.mk.injEq] at hok
            obtain ⟨hdb, -⟩ := hok
            subst hdb
            exact ⟨rv, rfl, Or.inr ⟨h3, Or.inl ⟨hgr, rfl⟩⟩⟩
          | some ride =>
            simp only [hgr] at hok
            simp only [Except.ok.injEq, Prod.mk.injEq] at hok
            obtain ⟨hdb, -⟩ := hok
            subst hdb
            exact ⟨rv, rfl, Or.inr ⟨h3, Or.inr ⟨ride, hgr, rfl⟩⟩⟩
        · rw [if_neg h3] at hok
          simp only [Except.ok.injEq, Prod.mk.injEq] at hok
          obtain ⟨hdb, -⟩ := hok
          subst hdb
          exact ⟨rv, rfl, Or.inl ⟨h3, rfl⟩⟩
    · rw [if_pos h1] at hok
      exact Except.noConfusion hok

theorem updateRide_ok_rides {caller id : Nat} {body : RideUpdateBody} {db db' : DB} {rout : Ride}
    (hok : updateRide caller id body db = .ok (db', rout)) :
    ∃ ride, db.getRide id = some ride ∧ ride.status ≠ RideStatus.COMPLETED ∧
      db'.rides = setByKey Ride.id ride.id rout db.rides ∧
      ((body.available_seats = none ∧ rout.status = ride.status ∧
        rout.available_seats = ride.available_seats) ∨
       (∃ s, body.available_seats = some s ∧ rout.available_seats = s ∧
         rout.status = if s > 0 ∧ ride.status = RideStatus.FULL then RideStatus.ACTIVE
                       else ride.status)) := by
  simp only [updateRide] at hok
  cases hr : db.getRide id with
  | none => simp only [hr] at hok; exact Except.noConfusion hok
  | some ride =>
    simp only [hr] at hok
    by_cases h1 : ride.driver_id = caller
    · by_cases h2 : ride.status = RideStatus.COMPLETED
      · rw [if_neg (not_not_intro h1), if_pos h2] at hok
        exact Except.noConfusion hok
      · rw [if_neg (not_not_intro h1), if_neg h2] at hok
        cases hbs : body.available_seats with
        | none =>
          simp only [hbs] at hok
          simp only [Except.ok.injEq, Prod.mk.injEq] at hok
          obtain ⟨hdb, hro⟩ := hok
          subst hdb; subst hro
          exact ⟨ride, rfl, h2, rfl, Or.inl ⟨rfl, rfl, rfl⟩⟩
        | some s =>
          simp only [hbs] at hok
          by_cases h3 : s < confirmedSeats db id
          · rw [if_pos h3] at hok
            exact Except.noConfusion hok
          · rw [if_neg h3] at hok
            simp only [Except.ok.injEq, Prod.mk.injEq] at hok
            obtain ⟨hdb, hro⟩ := hok
            subst hdb; subst hro
            exact ⟨ride, rfl, h2, rfl, Or.inr ⟨s, rfl, rfl, rfl⟩⟩
    · rw [if_pos h1] at hok
      exact Except.noConfusion hok

theorem delete_ok_rides {id : Nat} {db db' : DB}
    (hok : deleteReservation id db = .ok db') :
    ∃ rv, db.getRes id = some rv ∧
      ((db.getRide rv.ride_id = none ∧ db'.rides = db.rides) ∨
       ∃ ride, db.getRide rv.ride_id = some ride ∧
         db'.rides = setByKey Ride.id ride.id
           { ride with available_seats := ride.available_seats + rv.seats_reserved }
           db.rides) := by
  simp only [deleteReservation] at hok
  cases hres : db.getRes id with
  | none => simp only [hres] at hok; exact Except.noConfusion hok
  | some rv =>
    simp only [hres] at hok
    cases hgr : db.getRide rv.ride_id with
    | none =>
      simp only [hgr] at hok
      simp only [Except.ok.injEq] at hok
      subst hok
      exact ⟨rv, rfl, Or.inl ⟨hgr, rfl⟩⟩
    | some ride =>
      simp only [hgr] at hok
      simp only [Except.ok.injEq] at hok
      subst hok
      exact ⟨rv, rfl, Or.inr ⟨ride, hgr, rfl⟩⟩

/-- C3 counterexample: the driver sets available_seats to 0 on the
ACTIVE ride via RideDetail.put (allowed: no CONFIRMED seats); the code
only ever flips FULL back to ACTIVE and never sets FULL, so the ride
ends ACTIVE with zero seats, violating the claimed characterization
under the driver seat update. -/
theorem C3_counterexample :
    (updateRide 10 1 ⟨none, none, none, some 0⟩ exActive).map
      (fun p => (p.2.status, p.2.available_seats)) = .ok (RideStatus.ACTIVE, 0) ∧
    ¬ rideChar ⟨1, 10, "A", "B", 0, 0, RideStatus.ACTIVE⟩ := by decide

/-- C3 (amended): with every reservation's seats_reserved positive, the
characterization (FULL iff zero seats and not COMPLETED, ACTIVE iff
positive seats and not COMPLETED, COMPLETED excluding both) is preserved
by approve and cancel; the driver seat update preserves it provided any
new seat count is positive (the endpoint never sets FULL, so an update
to zero seats breaks it), and administrative delete preserves it
provided the affected ride is not FULL (it restores seats without
touching the status). -/
theorem C3_rideChar_preserved :
    (∀ caller id db db' rvout, seatsPos db →
      approveReservation caller id db = .ok (db', rvout) →
      (∀ r ∈ db.rides, rideChar r) → ∀ r ∈ db'.rides, rideChar r) ∧
    (∀ caller id db db' rvout, seatsPos db →
      cancelReservation caller id db = .ok (db', rvout) →
      (∀ r ∈ db.rides, rideChar r) → ∀ r ∈ db'.rides, rideChar r) ∧
    (∀ caller id body db db' rout, (∀ s, body.available_seats = some s → 0 < s) →
      updateRide caller id body db = .ok (db', rout) →
      (∀ r ∈ db.rides, rideChar r) → ∀ r ∈ db'.rides, rideChar r) ∧
    (∀ id db db', seatsPos db →
      (∀ rv ride, db.getRes id = some rv → db.getRide rv.ride_id = some ride →
        ride.status ≠ RideStatus.FULL) →
      deleteReservation id db = .ok db' →
      (∀ r ∈ db.rides, rideChar r) → ∀ r ∈ db'.rides, rideChar r) := by
  refine ⟨?_, ?_, ?_, ?_⟩
  · intro caller id db db' rvout hpos hok hall r' hr'
    obtain ⟨rv, ride, hres, hride, hpend, hcap, hrides⟩ := approve_ok_rides hok
    rw [hrides] at hr'
    rcases mem_setByKey hr' with rfl | hmem
    · have hs : 0 < rv.seats_reserved := hpos rv (getRes_mem hres).2
      have hchar := hall ride (getRide_mem hride).2
      rw [rideChar_iff] at hchar ⊢
      rcases hchar with hC | ⟨hF, h0⟩ | ⟨hA, hgt⟩
      · by_cases hz : ride.available_seats - rv.seats_reserved = 0
        · right; left
          refine ⟨?_, hz⟩
          show (if ride.available_seats - rv.seats_reserved = 0 then RideStatus.FULL
                else ride.status) = RideStatus.FULL
          rw [if_pos hz]
        · left
          show (if ride.available_seats - rv.seats_reserved = 0 then RideStatus.FULL
                else ride.status) = RideStatus.COMPLETED
          rw [if_neg hz]
          exact hC
      · exfalso
        omega
      · by_cases hz : ride.available_seats - rv.seats_reserved = 0
        · right; left
          refine ⟨?_, hz⟩
          show (if ride.available_seats - rv.seats_reserved = 0 then RideStatus.FULL
                else ride.status) = RideStatus.FULL
          rw [if_pos hz]
        · right; right
          constructor
          · show (if ride.available_seats - rv.seats_reserved = 0 then RideStatus.FULL
                  else ride.status) = RideStatus.ACTIVE
            rw [if_neg hz]
            exact hA
          · show 0 < ride.available_seats - rv.seats_reserved
            omega
    · exact hall r' hmem
  · intro caller id db db' rvout hpos hok hall r' hr'
    obtain ⟨rv, hres, hcase⟩ := cancel_ok_rides hok
    rcases hcase with ⟨-, hrides⟩ | ⟨hconf, hsub⟩
    · rw [hrides] at hr'
      exact hall r' hr'
    · rcases hsub with ⟨-, hrides⟩ | ⟨ride, hride, hrides⟩
      · rw [hrides] at hr'
        exact hall r' hr'
      · rw [hrides] at hr'
        rcases mem_setByKey hr' with rfl | hmem
        · have hs : 0 < rv.seats_reserved := hpos rv (getRes_mem hres).2
          have hchar := hall ride (getRide_mem hride).2
          rw [rideChar_iff] at hchar ⊢
          rcases hchar with hC | ⟨hF, h0⟩ | ⟨hA, hgt⟩
          · left
            show (if ride.status = RideStatus.FULL then RideStatus.ACTIVE
                  else ride.status) = RideStatus.COMPLETED
            rw [if_neg (by simp [hC])]
            exact hC
          · right; right
            constructor
            · show (if ride.status = RideStatus.FULL then RideStatus.ACTIVE
                    else ride.status) = RideStatus.ACTIVE
              rw [if_pos hF]
            · show 0 < ride.available_seats + rv.seats_reserved
              omega
          · right; right
            constructor
            · show (if ride.status = RideStatus.FULL then RideStatus.ACTIVE
                    else ride.status) = RideStatus.ACTIVE
              rw [if_neg (by simp [hA])]
              exact hA
            · show 0 < ride.available_seats + rv.seats_reserved
              omega
        · exact hall r' hmem
  · intro caller id body db db' rout hguard hok hall r' hr'
    obtain ⟨ride, hrid, hnc, hrides, hcase⟩ := updateRide_ok_rides hok
    rw [hrides] at hr'
    rcases mem_setByKey hr' with rfl | hmem
    · have hchar := hall ride (getRide_mem hrid).2
      rw [rideChar_iff] at hchar ⊢
      rcases hcase with ⟨-, hst, hav⟩ | ⟨s, hbs, hav, hst⟩
      · rw [hst, hav]
        exact hchar
      · have hs0 : 0 < s := hguard s hbs
        rcases hchar with hC | ⟨hF, h0⟩ | ⟨hA, hgt⟩
        · exact absurd hC hnc
        · right; right
          constructor
          · rw [hst, if_pos ⟨hs0, hF⟩]
          · rw [hav]
            exact hs0
        · right; right
          constructor
          · rw [hst, if_neg (by simp [hA])]
            exact hA
          · rw [hav]
            exact hs0
    · exact hall r' hmem
  · intro id db db' hpos hguard hok hall r' hr'
    obtain ⟨rv, hres, hcase⟩ := delete_ok_rides hok
    rcases hcase with ⟨-, hrides⟩ | ⟨ride, hride, hrides⟩
    · rw [hrides] at hr'
      exact hall r' hr'
    · rw [hrides] at hr'
      rcases mem_setByKey hr' with rfl | hmem
      · have hs : 0 < rv.seats_reserved := hpos rv (getRes_mem hres).2
        have hnf := hguard rv ride hres hride
        have hchar := hall ride (getRide_mem hride).2
        rw [rideChar_iff] at hchar ⊢
        rcases hchar with hC | ⟨hF, -⟩ | ⟨hA, hgt⟩
        · left
          exact hC
        · exact absurd hF hnf
        · right; right
          refine ⟨hA, ?_⟩
          show 0 < ride.available_seats + rv.seats_reserved
          omega
      · exact hall r' hmem

/-- Witness for C3 (amended): the approve conjunct applied at the
concrete 3-seat ride: after approving the 2-seat reservation the updated
ride (1 seat, ACTIVE) still satisfies the characterization. -/
theorem C3_rideChar_preserved_witness :
    rideChar ⟨1, 10, "A", "B", 0, 1, RideStatus.ACTIVE⟩ := by
  have h := C3_rideChar_preserved.1 10 1 exDelete _ _ (by decide) rfl (by decide)
  exact h _ (by decide)

theorem pendingUnit_congr {db db' : DB} {rid i : Nat}
    (h : db'.getRes i = db.getRes i) :
    pendingUnit db' rid i = pendingUnit db rid i := by
  unfold pendingUnit
  rw [h]

/-- Invariant of a batch of one-seat approvals, by induction over the
serialization order: with a seats available, exactly min a N of the N
approvals succeed, the rest fail with the 400 capacity abort, and the
ride ends with a - min a N seats. -/
theorem approveAll_spec (d rid : Nat) :
    ∀ (ids : List Nat) (db : DB) (ride : Ride) (a : Nat),
      db.getRide rid = some ride → ride.driver_id = d →
      ride.available_seats = (a : Int) →
      ids.Nodup → (∀ i ∈ ids, pendingUnit db rid i = true) →
      (approveAll d db ids).2.1 = min a ids.length ∧
      (approveAll d db ids).2.2 = ids.length - min a ids.length ∧
      ∃ ride', (approveAll d db ids).1.getRide rid = some ride' ∧
        ride'.available_seats = ((a - min a ids.length : Nat) : Int) := by
  intro ids
  induction ids with
  | nil =>
    intro db ride a hr hd ha hnd hp
    refine ⟨by simp [approveAll], by simp [approveAll], ride, ?_, ?_⟩
    · simpa [approveAll] using hr
    · simpa [approveAll] using ha
  | cons i rest ih =>
    intro db ride a hr hd ha hnd hp
    have hpi := hp i (List.mem_cons_self i rest)
    unfold pendingUnit at hpi
    cases hgetres : db.getRes i with
    | none => rw [hgetres] at hpi; exact Bool.noConfusion hpi
    | some rv =>
    rw [hgetres] at hpi
    simp only [Bool.and_eq_true, beq_iff_eq] at hpi
    obtain ⟨⟨hrid', hseats⟩, hstat⟩ := hpi
    have hgr2 : db.getRide rv.ride_id = some ride := by rw [hrid']; exact hr
    have hrvid : rv.id = i := (getRes_mem hgetres).1
    have hkride : ride.id = rid := (getRide_mem hr).1
    have hii : i ∉ rest := (List.nodup_cons.1 hnd).1
    have hndr : rest.Nodup := (List.nodup_cons.1 hnd).2
    rcases Nat.eq_zero_or_pos a with ha0 | hapos
    · subst ha0
      have herr : approveReservation d i db =
          .error ⟨400, "Not enough seats available"⟩ := by
        simp only [approveReservation, hgetres, hgr2]
        rw [if_neg (not_not_intro hd), if_neg (not_not_intro hstat),
          if_pos (show rv.seats_reserved > ride.available_seats by
            rw [hseats, ha]; decide)]
      have hall := ih db ride 0 hr hd ha hndr
        (fun i' hm => hp i' (List.mem_cons_of_mem i hm))
      obtain ⟨h1, h2, ride', hride', hav'⟩ := hall
      simp only [approveAll, herr]
      rw [if_pos (show ((400 : Nat) == 400) = true from rfl)]
      refine ⟨?_, ?_, ride', ?_, ?_⟩
      · rw [h1]; omega
      · rw [h2]
        simp only [List.length_cons]
        omega
      · exact hride'
      · rw [hav']
        simp [Nat.zero_sub]
    · have hok : approveReservation d i db =
          .ok ((((db.setRide { ride with
              available_seats := ride.available_seats - rv.seats_reserved,
              status := if ride.available_seats - rv.seats_reserved = 0 then RideStatus.FULL
                        else ride.status }).setRes
              { rv with status := ResStatus.CONFIRMED }).addNotif rv.employee_id ride.id
              ("Reservation APPROVED for ride " ++ toString ride.id)),
            { rv with status := ResStatus.CONFIRMED }) := by
        simp only [approveReservation, hgetres, hgr2]
        rw [if_neg (not_not_intro hd), if_neg (not_not_intro hstat),
          if_neg (show ¬ rv.seats_reserved > ride.available_seats by
            rw [hseats, ha]
            exact not_lt.2 (by exact_mod_cast hapos))]
      have hgetX : (((db.setRide { ride with
          available_seats := ride.available_seats - rv.seats_reserved,
          status := if ride.available_seats - rv.seats_reserved = 0 then RideStatus.FULL
                    else ride.status }).setRes
          { rv with status := ResStatus.CONFIRMED }).addNotif rv.employee_id ride.id
          ("Reservation APPROVED for ride " ++ toString ride.id)).getRide rid =
          some { ride with
            available_seats := ride.available_seats - rv.seats_reserved,
            status := if ride.available_seats - rv.seats_reserved = 0 then RideStatus.FULL
                      else ride.status } := by
        rw [getRide_addNotif, getRide_setRes, ← hkride]
        exact getRide_setRide_self ⟨ride, (getRide_mem hr).2, rfl⟩
      have hpX : ∀ i' ∈ rest,
          pendingUnit (((db.setRide { ride with
            available_seats := ride.available_seats - rv.seats_reserved,
            status := if ride.available_seats - rv.seats_reserved = 0 then RideStatus.FULL
                      else ride.status }).setRes
            { rv with status := ResStatus.CONFIRMED }).addNotif rv.employee_id ride.id
            ("Reservation APPROVED for ride " ++ toString ride.id)) rid i' = true := by
        intro i' hm
        have hne : i' ≠ i := fun h => hii (h ▸ hm)
        have hres_eq : (((db.setRide { ride with
            available_seats := ride.available_seats - rv.seats_reserved,
            status := if ride.available_seats - rv.seats_reserved = 0 then RideStatus.FULL
                      else ride.status }).setRes
            { rv with status := ResStatus.CONFIRMED }).addNotif rv.employee_id ride.id
            ("Reservation APPROVED for ride " ++ toString ride.id)).getRes i' =
            db.getRes i' := by
          rw [getRes_addNotif,
            getRes_setRes_ne (show i' ≠ ({ rv with status := ResStatus.CONFIRMED } :
              Reservation).id from fun h => hne (h.trans hrvid)),
            getRes_setRide]
        rw [pendingUnit_congr hres_eq]
        exact hp i' (List.mem_cons_of_mem i hm)
      have hall := ih _ _ (a - 1) hgetX hd
        (by
          show ride.available_seats - rv.seats_reserved = ((a - 1 : Nat) : Int)
          rw [hseats, ha]
          omega)
        hndr hpX
      obtain ⟨h1, h2, ride', hride', hav'⟩ := hall
      simp only [approveAll, hok]
      refine ⟨?_, ?_, ride', ?_, ?_⟩
      · rw [h1]
        simp only [List.length_cons]
        omega
      · rw [h2]
        simp only [List.length_cons]
        omega
      · exact hride'
      · rw [hav']
        simp only [List.length_cons]
        congr 1
        omega

/-- C8: with the per-ride SELECT FOR UPDATE lock making each approve an
atomic read-check-write unit, N concurrent one-seat approvals on a ride
with C available seats are equivalent to executing them in some serial
order; for every such order (any duplicate-free list of N PENDING
one-seat reservations on the ride, N greater than C), exactly C approvals
succeed, the other N - C fail with the 400 VALIDATION_ERROR capacity
abort (C successes plus N - C counted 400-failures exhaust all N calls),
and the ride ends with available_seats = 0. -/
theorem C8_concurrent_approvals (d rid : Nat) (ids : List Nat) (db : DB)
    (ride : Ride) (C : Nat)
    (hr : db.getRide rid = some ride) (hd : ride.driver_id = d)
    (ha : ride.available_seats = (C : Int))
    (hnd : ids.Nodup) (hp : ∀ i ∈ ids, pendingUnit db rid i = true)
    (hlt : C < ids.length) :
    (approveAll d db ids).2.1 = C ∧
    (approveAll d db ids).2.2 = ids.length - C ∧
    ∃ ride', (approveAll d db ids).1.getRide rid = some ride' ∧
      ride'.available_seats = 0 := by
  obtain ⟨h1, h2, ride', hride', hav'⟩ := approveAll_spec d rid ids db ride C hr hd ha hnd hp
  have hmin : min C ids.length = C := Nat.min_eq_left (Nat.le_of_lt hlt)
  refine ⟨by rw [h1, hmin], by rw [h2, hmin], ride', hride', ?_⟩
  rw [hav']
  have : C - min C ids.length = 0 := by omega
  rw [this]
  rfl

/-- Witness for C8: the 1-seat ride with two competing one-seat PENDING
reservations: one approval succeeds, one fails with the 400 capacity
abort, and the ride ends full. -/
theorem C8_concurrent_approvals_witness :
    (approveAll 10 exTwoPending [1, 2]).2.1 = 1 ∧
    (approveAll 10 exTwoPending [1, 2]).2.2 = 1 := by
  obtain ⟨h1, h2, -⟩ := C8_concurrent_approvals 10 1 [1, 2] exTwoPending
    ⟨1, 10, "A", "B", 0, 1, RideStatus.ACTIVE⟩ 1 rfl rfl (by decide) (by decide)
    (by decide) (by decide)
  exact ⟨h1, h2⟩

end Carpool
